import Mathlib

/-!
Verification of the porch wrapper server, REST update strategy, e2e test
credentials type, the package-revision lifecycle engine, and the golden
clone/pull output of the kpt repository, as a shallow embedding in Lean 4.
-/

namespace Porch

/-! ## Wrapper server (porch/func/wrapper-server/main.go)

The wrapper server is a gRPC server fronting a single KRM function.  We
embed the data flowing through `singleFunctionEvaluator.EvaluateFunction`:
the request, the command the server builds from its configured entrypoint,
the outcome of running the subprocess, and the response or gRPC status
error the handler returns. -/

/-- Go byte slices are modelled as lists of naturals. -/
abbrev Bytes := List Nat

/-- `pb.EvaluateFunctionRequest`: image reference, resource-list bytes and
optional configuration bytes. -/
structure EvaluateFunctionRequest where
  image : String
  resourceList : Bytes
  deriving DecidableEq, Repr

/-- `pb.EvaluateFunctionResponse`: the transformed resource list, the log,
and the structured diagnostics list (the wire interface's `Results`
field; the wrapper server never populates it, leaving it empty). -/
structure EvaluateFunctionResponse where
  resourceList : Bytes
  log : Bytes
  results : List String
  deriving DecidableEq, Repr

/-- The gRPC status codes the wrapper server can attach to an error. -/
inductive StatusCode
  | internal
  | unavailable
  deriving DecidableEq, Repr

/-- A gRPC status error as produced by `status.Errorf`. -/
structure GrpcStatusError where
  code : StatusCode
  message : String
  deriving DecidableEq, Repr

/-- The error `cmd.Run()` can return: `exitError` is Go's
`exec.ExitError` (the process started and exited non-zero, or was killed
by a signal, carrying a nonzero code); `other` is any other failure, for
example failure to start the binary. -/
inductive RunError
  | exitError (exitCode : Nat)
  | other (msg : String)
  deriving DecidableEq, Repr

/-- The observable outcome of `cmd.Run()`: the error returned, if any,
and whatever the subprocess wrote to its standard output and standard
error buffers. -/
structure CmdRunOutcome where
  err : Option RunError
  stdout : Bytes
  stderr : Bytes
  deriving DecidableEq, Repr

/-- The subprocess command assembled by `exec.CommandContext` together
with the standard-input bytes wired to it (`cmd.Stdin`). -/
structure ExecCmd where
  path : String
  args : List String
  stdin : Bytes
  deriving DecidableEq, Repr

/-- `singleFunctionEvaluator`: holds the configured entrypoint. -/
structure singleFunctionEvaluator where
  entrypoint : List String
  deriving DecidableEq, Repr

/-- The command construction in `EvaluateFunction`:
`exec.CommandContext(ctx, e.entrypoint[0], e.entrypoint[1:]...)` with
`cmd.Stdin = bytes.NewReader(req.ResourceList)`.  Indexing
`e.entrypoint[0]` panics when the entrypoint is empty, which we model as
`none`. -/
def buildCmd (e : singleFunctionEvaluator) (req : EvaluateFunctionRequest) :
    Option ExecCmd :=
  match e.entrypoint with
  | [] => none
  | p :: rest => some { path := p, args := rest, stdin := req.resourceList }

/-- The Go test `err != nil && !errors.As(err, &exitErr)`: true exactly
when `cmd.Run` failed with something other than an `exec.ExitError`. -/
def isNonExitFailure : Option RunError → Bool
  | some (RunError.other _) => true
  | _ => false

/-- Render a byte buffer the way `stderr.String()` does. -/
def bytesToString (b : Bytes) : String :=
  String.mk (b.map Char.ofNat)

/-- The message built by `status.Errorf(codes.Internal, "Failed to execute
function %q: %s (%s)", req.Image, err, stderr.String())`. -/
def internalErrorMessage (image : String) (errMsg : String) (stderr : Bytes) :
    String :=
  "Failed to execute function \"" ++ image ++ "\": " ++ errMsg ++
    " (" ++ bytesToString stderr ++ ")"

/-- `singleFunctionEvaluator.EvaluateFunction`.  The subprocess outcome is
passed in explicitly (it is the environment's nondeterministic choice).
`none` models the index-out-of-range panic on an empty entrypoint.  When
`cmd.Run` fails with a non-`ExitError`, the handler returns a gRPC
`Internal` status error; otherwise (success or non-zero exit) it returns a
normal response carrying stdout as the resource list and stderr as the
log, with no `Results` populated. -/
def EvaluateFunction (e : singleFunctionEvaluator)
    (req : EvaluateFunctionRequest) (outcome : CmdRunOutcome) :
    Option (Except GrpcStatusError EvaluateFunctionResponse) :=
  match buildCmd e req with
  | none => none
  | some _ =>
    if isNonExitFailure outcome.err then
      let msg := match outcome.err with
        | some (RunError.other m) => m
        | _ => ""
      some (Except.error
        { code := StatusCode.internal
        , message := internalErrorMessage req.image msg outcome.stderr })
    else
      some (Except.ok
        { resourceList := outcome.stdout
        , log := outcome.stderr
        , results := [] })

/-- The default of `cmd.Flags().IntVar(&op.port, "port", 9446, ...)`. -/
def defaultPort : Nat := 9446

/-- `options` as populated by `main`: the `--port` flag and the
entrypoint arguments. -/
structure options where
  port : Nat
  entrypoint : List String
  deriving DecidableEq, Repr

/-- Option parsing in `main`: the port takes the flag value or the
default `9446`; the entrypoint is `args[argsLenAtDash:]` when a `--`
separator was present (`argsLenAtDash > -1`, modelled by `some`), and
stays empty otherwise. -/
def parseOptions (portFlag : Option Nat) (args : List String)
    (argsLenAtDash : Option Nat) : options :=
  { port := portFlag.getD defaultPort
  , entrypoint :=
      match argsLenAtDash with
      | none => []
      | some n => args.drop n }

/-- The listen address `fmt.Sprintf(":%d", o.port)` in `options.run`. -/
def listenAddress (port : Nat) : String :=
  ":" ++ toString port

/-! ### Health checker -/

/-- `grpc_health_v1.HealthCheckRequest` (the service field is unused by
the wrapper server). -/
structure HealthCheckRequest where
  service : String
  deriving DecidableEq, Repr

/-- `grpc_health_v1.HealthCheckResponse_ServingStatus`. -/
inductive ServingStatus
  | unknown
  | serving
  | notServing
  deriving DecidableEq, Repr

/-- `grpc_health_v1.HealthCheckResponse`. -/
structure HealthCheckResponse where
  status : ServingStatus
  deriving DecidableEq, Repr

/-- `HealthChecker.Check`: always replies `SERVING`. -/
def HealthChecker.Check (req : HealthCheckRequest) : HealthCheckResponse :=
  { status := ServingStatus.serving }

/-- `HealthChecker.Watch`: the handler calls `server.Send` once with a
`SERVING` response and immediately returns its error, terminating the
stream.  We model the streaming reply as the list of messages sent before
the handler returns. -/
def HealthChecker.Watch (req : HealthCheckRequest) : List HealthCheckResponse :=
  [{ status := ServingStatus.serving }]

/-! ## e2e suite credentials (porch/apiserver/pkg/e2e/suite.go)

`type Password string` with a `String()` method that always renders the
fixed mask, regardless of the stored secret. -/

/-- `type Password string`. -/
def Password := String

/-- `Password.String`: `return "*************"` — thirteen asterisks,
independent of the receiver. -/
def Password.String (p : Password) : String :=
  "*************"

/-! ## NoopUpdateStrategy (porch/apiserver/pkg/registry/porch/rest.go)

The no-op implementation of `SimpleRESTUpdateStrategy`.  Go's
`runtime.Object` interface is modelled by a type parameter; the in-place
mutating methods become state-passing functions returning the (possibly
updated) objects. -/

/-- A single `field.Error` from k8s.io/apimachinery validation. -/
structure FieldError where
  errType : String
  fieldPath : String
  detail : String
  deriving DecidableEq, Repr

/-- `field.ErrorList`. -/
abbrev FieldErrorList := List FieldError

/-- An opaque `context.Context` value. -/
structure GoContext where
  id : Nat
  deriving DecidableEq, Repr

/-- `type NoopUpdateStrategy struct{}`. -/
structure NoopUpdateStrategy where
  deriving DecidableEq, Repr

/-- `NoopUpdateStrategy.PrepareForUpdate` has an empty body: the new and
old objects come back exactly as they went in. -/
def NoopUpdateStrategy.PrepareForUpdate {Obj : Type}
    (s : NoopUpdateStrategy) (ctx : GoContext) (obj old : Obj) : Obj × Obj :=
  (obj, old)

/-- `NoopUpdateStrategy.ValidateUpdate` returns `nil`, the empty error
list. -/
def NoopUpdateStrategy.ValidateUpdate {Obj : Type}
    (s : NoopUpdateStrategy) (ctx : GoContext) (obj old : Obj) :
    FieldErrorList :=
  []

/-- `NoopUpdateStrategy.Canonicalize` has an empty body: the object is
unchanged. -/
def NoopUpdateStrategy.Canonicalize {Obj : Type}
    (s : NoopUpdateStrategy) (obj : Obj) : Obj :=
  obj

/-! ## Golden clone/pull output (src/unnamed e2e command fixture)

The e2e fixture registers a git repository, clones
`https://github.com/platkrm/test-blueprints.git` at `--ref=basens/v1`
`--directory=basens` into package `basens-clone`, and asserts that `rpkg
pull` prints a ResourceList whose Kptfile carries the upstream reference
and the resolved upstream lock, followed by the cloned `namespace.yaml`.
We embed the asserted golden output verbatim. -/

/-- The `upstream.git` section of a Kptfile. -/
structure GitUpstreamData where
  repo : String
  ref : String
  directory : String
  deriving DecidableEq, Repr

/-- The `upstreamLock.git` section of a Kptfile: the upstream locator
plus the resolved immutable commit. -/
structure GitLockData where
  repo : String
  ref : String
  directory : String
  commit : String
  deriving DecidableEq, Repr

/-- The Kptfile document as it appears in the pulled ResourceList. -/
structure KptfileDoc where
  name : String
  description : String
  path : String
  upstreamType : String
  upstream : GitUpstreamData
  lockType : String
  upstreamLock : GitLockData
  deriving DecidableEq, Repr

/-- A plain `v1 Namespace` document in the pulled ResourceList. -/
structure NamespaceDoc where
  name : String
  path : String
  deriving DecidableEq, Repr

/-- One item of the pulled ResourceList. -/
inductive ResourceItemDoc
  | kptfile (k : KptfileDoc)
  | nsDoc (n : NamespaceDoc)
  deriving DecidableEq, Repr

/-- The arguments of the asserted `rpkg clone` command. -/
def basensCloneArgs : List String :=
  ["alpha", "rpkg", "clone", "--namespace=rpkg-clone",
   "https://github.com/platkrm/test-blueprints.git",
   "--directory=basens", "--ref=basens/v1", "git:basens-clone:v0"]

/-- The golden stdout of `rpkg pull git:basens-clone:v0`, transcribed
from the fixture. -/
def basensClonePull : List ResourceItemDoc :=
  [ ResourceItemDoc.kptfile
      { name := "basens-clone"
      , description := "sample description"
      , path := "Kptfile"
      , upstreamType := "git"
      , upstream :=
          { repo := "https://github.com/platkrm/test-blueprints.git"
          , ref := "basens/v1"
          , directory := "basens" }
      , lockType := "git"
      , upstreamLock :=
          { repo := "https://github.com/platkrm/test-blueprints.git"
          , ref := "basens/v1"
          , directory := "basens"
          , commit := "67f29546028f0a48c6bbb08614934d0e070cdd3a" } }
  , ResourceItemDoc.nsDoc { name := "example", path := "namespace.yaml" } ]

/-- A lowercase-or-uppercase hexadecimal digit. -/
def isHexChar (c : Char) : Bool :=
  c.isDigit || (Char.ofNat 97 ≤ c && c ≤ Char.ofNat 102) ||
    (Char.ofNat 65 ≤ c && c ≤ Char.ofNat 70)

/-- Forty hexadecimal characters: the shape of a full git commit hash. -/
def isHex40 (s : String) : Bool :=
  s.length == 40 && s.toList.all isHexChar

/-! ## Package-revision lifecycle engine

The engine itself is not among the given sources (only the spec and the
golden fixture are), so its state machine is modelled from the spec. -/

/-- The revision lifecycle labels. -/
inductive Lifecycle
  | draft
  | proposed
  | published
  | deletionProposed
  deriving DecidableEq, Repr

/-- The state of one package revision: live with a lifecycle label, or
removed from the backend. -/
inductive RevState
  | live (l : Lifecycle)
  | deleted
  deriving DecidableEq, Repr

/-- The public engine operations. -/
inductive EngineOp
  | create
  | clone
  | updateResources
  | propose
  | approve
  | reject
  | proposeDelete
  | delete
  deriving DecidableEq, Repr

/-- Modelled from the spec: the package-revision engine's operation table
(preconditions and postconditions of create, clone, updateResources,
propose, approve, reject, proposeDelete, delete); the engine source is
not among the given files.  An operation whose precondition fails returns
`Conflict` and leaves the revision unchanged; `create` and `clone` make
new revisions, so on an existing revision their duplicate-id precondition
fails; a deleted revision no longer exists, so every operation on it is
`NotFound` and changes nothing. -/
def engineStep : RevState → EngineOp → RevState
  | RevState.live Lifecycle.draft, EngineOp.updateResources =>
      RevState.live Lifecycle.draft
  | RevState.live Lifecycle.draft, EngineOp.propose =>
      RevState.live Lifecycle.proposed
  | RevState.live Lifecycle.proposed, EngineOp.approve =>
      RevState.live Lifecycle.published
  | RevState.live Lifecycle.proposed, EngineOp.reject =>
      RevState.live Lifecycle.draft
  | RevState.live Lifecycle.published, EngineOp.proposeDelete =>
      RevState.live Lifecycle.deletionProposed
  | RevState.live Lifecycle.draft, EngineOp.delete => RevState.deleted
  | RevState.live Lifecycle.deletionProposed, EngineOp.delete =>
      RevState.deleted
  | s, _ => s

/-- A sequence of engine operations applied to a revision. -/
def applyOps (s : RevState) (ops : List EngineOp) : RevState :=
  ops.foldl engineStep s

/-! ### Upstream lock within one revision's lifetime -/

/-- A resource bundle: relative path to file contents. -/
abbrev Bundle := List (String × String)

/-- One package revision document: lifecycle, resource bundle, and the
`upstreamLock` value of its manifest (`none` when never materialized). -/
structure RevisionDoc where
  lifecycle : Lifecycle
  resources : Bundle
  lock : Option String
  deriving DecidableEq, Repr

/-- Modelled from the spec: on `clone` the engine resolves the upstream
to an immutable identifier and writes the lock into the manifest before
the first commit; the engine source is not among the given files.  The
new revision starts as a `Draft` with the lock populated. -/
def cloneRev (upstreamCommit : String) (bundle : Bundle) : RevisionDoc :=
  { lifecycle := Lifecycle.draft
  , resources := bundle
  , lock := some upstreamCommit }

/-- The engine operations acting on an existing revision. -/
inductive RevOp
  | updateResources (bundle : Bundle)
  | propose
  | approve
  | reject
  | proposeDelete
  deriving DecidableEq, Repr

/-- Modelled from the spec: the engine's edits within one revision's
lifetime.  `updateResources` replaces the draft's bundle and the other
operations move the lifecycle label; none of them rewrites the lock, and
operations whose precondition fails change nothing. -/
def revStep (r : RevisionDoc) : RevOp → RevisionDoc
  | RevOp.updateResources b =>
      if r.lifecycle = Lifecycle.draft then { r with resources := b } else r
  | RevOp.propose =>
      if r.lifecycle = Lifecycle.draft then
        { r with lifecycle := Lifecycle.proposed }
      else r
  | RevOp.approve =>
      if r.lifecycle = Lifecycle.proposed then
        { r with lifecycle := Lifecycle.published }
      else r
  | RevOp.reject =>
      if r.lifecycle = Lifecycle.proposed then
        { r with lifecycle := Lifecycle.draft }
      else r
  | RevOp.proposeDelete =>
      if r.lifecycle = Lifecycle.published then
        { r with lifecycle := Lifecycle.deletionProposed }
      else r

/-- A sequence of engine edits applied to a revision document. -/
def applyRevOps (r : RevisionDoc) (ops : List RevOp) : RevisionDoc :=
  ops.foldl revStep r

/-! ## Helper lemmas -/

/-- The states reachable from `Published`. -/
def publishedSafe (s : RevState) : Prop :=
  s = RevState.live Lifecycle.published ∨
    s = RevState.live Lifecycle.deletionProposed ∨ s = RevState.deleted

theorem engineStep_publishedSafe (s : RevState) (op : EngineOp)
    (h : publishedSafe s) : publishedSafe (engineStep s op) := by
  rcases h with h | h | h <;> subst h <;> cases op <;>
    simp [engineStep, publishedSafe]

theorem applyOps_publishedSafe (ops : List EngineOp) :
    ∀ s : RevState, publishedSafe s → publishedSafe (applyOps s ops) := by
  induction ops with
  | nil => intro s h; exact h
  | cons op rest ih =>
      intro s h
      have hstep := engineStep_publishedSafe s op h
      simpa [applyOps, List.foldl_cons] using ih (engineStep s op) hstep

theorem revStep_lock (r : RevisionDoc) (op : RevOp) :
    (revStep r op).lock = r.lock := by
  cases op <;> simp only [revStep] <;> split <;> rfl

theorem applyRevOps_lock (ops : List RevOp) :
    ∀ r : RevisionDoc, (applyRevOps r ops).lock = r.lock := by
  induction ops with
  | nil => intro r; rfl
  | cons op rest ih =>
      intro r
      have h : applyRevOps r (op :: rest) = applyRevOps (revStep r op) rest := by
        simp [applyRevOps, List.foldl_cons]
      rw [h, ih (revStep r op), revStep_lock]

/-! ## Claim theorems -/

/-- C1: a non-zero exit of the entrypoint process (an `exec.ExitError`)
yields a normal response, never an RPC error; a gRPC `Internal` status
error is returned exactly when the subprocess failed for a reason other
than a non-zero exit (for example failing to start). -/
theorem evaluateFunction_error_classification
    (e : singleFunctionEvaluator) (req : EvaluateFunctionRequest)
    (outcome : CmdRunOutcome) (h : e.entrypoint ≠ []) :
    (∀ c, outcome.err = some (RunError.exitError c) →
      ∃ resp, EvaluateFunction e req outcome = some (Except.ok resp)) ∧
    (∀ gerr, EvaluateFunction e req outcome = some (Except.error gerr) →
      gerr.code = StatusCode.internal ∧
        ∃ msg, outcome.err = some (RunError.other msg)) ∧
    (∀ msg, outcome.err = some (RunError.other msg) →
      ∃ gerr, EvaluateFunction e req outcome = some (Except.error gerr) ∧
        gerr.code = StatusCode.internal) := by
  obtain ⟨ep⟩ := e
  cases ep with
  | nil => exact absurd rfl h
  | cons p rest =>
      refine ⟨?_, ?_, ?_⟩
      · intro c hc
        simp [EvaluateFunction, buildCmd, isNonExitFailure, hc]
      · intro gerr hg
        rcases herr : outcome.err with _ | re
        · simp [EvaluateFunction, buildCmd, isNonExitFailure, herr] at hg
        · cases re with
          | exitError c =>
              simp [EvaluateFunction, buildCmd, isNonExitFailure, herr] at hg
          | other m =>
              simp [EvaluateFunction, buildCmd, isNonExitFailure, herr] at hg
              exact ⟨by simp [← hg], m, rfl⟩
      · intro msg hm
        refine ⟨{ code := StatusCode.internal
                , message :=
                    internalErrorMessage req.image msg outcome.stderr },
          ?_, rfl⟩
        simp [EvaluateFunction, buildCmd, isNonExitFailure, hm]

/-- Witness for C1 at a concrete request and a concrete non-zero exit. -/
theorem evaluateFunction_error_classification_witness :
    ({ entrypoint := ["fn"] } : singleFunctionEvaluator).entrypoint ≠ [] ∧
    ∃ resp,
      EvaluateFunction { entrypoint := ["fn"] }
        { image := "img", resourceList := [1] }
        { err := some (RunError.exitError 1), stdout := [2], stderr := [3] } =
        some (Except.ok resp) :=
  ⟨by decide,
    (evaluateFunction_error_classification { entrypoint := ["fn"] }
      { image := "img", resourceList := [1] }
      { err := some (RunError.exitError 1), stdout := [2], stderr := [3] }
      (by decide)).1 1 rfl⟩

/-- C2: whenever the entrypoint process completes (it exited, with zero
or non-zero status), the handler replies with the wire triple: the bytes
the subprocess wrote to standard output as the resource list, the bytes
it wrote to standard error as the log, and the (empty) structured
diagnostics list. -/
theorem evaluateFunction_completed_response
    (e : singleFunctionEvaluator) (req : EvaluateFunctionRequest)
    (outcome : CmdRunOutcome) (h : e.entrypoint ≠ [])
    (hc : outcome.err = none ∨
      ∃ c, outcome.err = some (RunError.exitError c)) :
    EvaluateFunction e req outcome =
      some (Except.ok
        { resourceList := outcome.stdout
        , log := outcome.stderr
        , results := [] }) := by
  obtain ⟨ep⟩ := e
  cases ep with
  | nil => exact absurd rfl h
  | cons p rest =>
      rcases hc with hc | ⟨c, hc⟩ <;>
        simp [EvaluateFunction, buildCmd, isNonExitFailure, hc]

/-- Witness for C2 at a concrete request completing with exit zero. -/
theorem evaluateFunction_completed_response_witness :
    ({ entrypoint := ["fn"] } : singleFunctionEvaluator).entrypoint ≠ [] ∧
    EvaluateFunction { entrypoint := ["fn"] }
      { image := "img", resourceList := [7] }
      { err := none, stdout := [8], stderr := [9] } =
      some (Except.ok { resourceList := [8], log := [9], results := [] }) :=
  ⟨by decide,
    evaluateFunction_completed_response { entrypoint := ["fn"] }
      { image := "img", resourceList := [7] }
      { err := none, stdout := [8], stderr := [9] }
      (by decide) (Or.inl rfl)⟩

/-- C3: the golden `rpkg pull` output of the basens clone carries a
Kptfile whose upstream section records the clone's git ref `basens/v1`
and directory `basens`, whose upstreamLock section records the same
locator with a 40-hexadecimal-character commit, and a `namespace.yaml`
item named `example`. -/
theorem basensClone_manifest_upstream_lock :
    basensCloneArgs.contains "--ref=basens/v1" = true ∧
    basensCloneArgs.contains "--directory=basens" = true ∧
    (basensClonePull.any fun item =>
      match item with
      | ResourceItemDoc.kptfile k =>
          k.upstream.ref == "basens/v1" && k.upstream.directory == "basens" &&
          k.upstreamType == "git" && k.lockType == "git" &&
          k.upstreamLock.ref == "basens/v1" &&
          k.upstreamLock.directory == "basens" &&
          isHex40 k.upstreamLock.commit
      | _ => false) = true ∧
    (basensClonePull.any fun item =>
      match item with
      | ResourceItemDoc.nsDoc n =>
          n.name == "example" && n.path == "namespace.yaml"
      | _ => false) = true := by
  decide

/-- C4: starting from `Published`, no sequence of engine operations
reaches `Draft`, and a single operation on a `Published` revision either
leaves it `Published` or moves it to `DeletionProposed`. -/
theorem published_never_draft_again (ops : List EngineOp) :
    applyOps (RevState.live Lifecycle.published) ops ≠
      RevState.live Lifecycle.draft ∧
    ∀ op, engineStep (RevState.live Lifecycle.published) op =
        RevState.live Lifecycle.published ∨
      engineStep (RevState.live Lifecycle.published) op =
        RevState.live Lifecycle.deletionProposed := by
  constructor
  · have h := applyOps_publishedSafe ops
      (RevState.live Lifecycle.published) (Or.inl rfl)
    rcases h with h | h | h <;> rw [h] <;> decide
  · intro op; cases op <;> simp [engineStep]

/-- C5: the upstream lock of a cloned revision is populated at clone
time, and no later sequence of engine edits (updateResources or
lifecycle moves) ever changes it. -/
theorem upstream_lock_written_once (commit : String) (bundle : Bundle)
    (ops : List RevOp) :
    (cloneRev commit bundle).lock = some commit ∧
    (applyRevOps (cloneRev commit bundle) ops).lock = some commit := by
  refine ⟨rfl, ?_⟩
  rw [applyRevOps_lock ops (cloneRev commit bundle)]
  rfl

/-- C6: with no `--port` flag the server's options carry the default
port 9446 (so it listens on `:9446`), and the command built for an
evaluation wires the request's resource-list bytes to the subprocess's
standard input. -/
theorem wrapper_default_port_and_stdin
    (args : List String) (dash : Option Nat)
    (e : singleFunctionEvaluator) (req : EvaluateFunctionRequest)
    (cmd : ExecCmd) (h : buildCmd e req = some cmd) :
    (parseOptions none args dash).port = 9446 ∧
    listenAddress (parseOptions none args dash).port = ":9446" ∧
    cmd.stdin = req.resourceList := by
  have hp : (parseOptions none args dash).port = 9446 := rfl
  refine ⟨rfl, by rw [hp]; decide, ?_⟩
  obtain ⟨ep⟩ := e
  cases ep with
  | nil => simp [buildCmd] at h
  | cons p rest =>
      simp [buildCmd] at h
      rw [← h]

/-- Witness for C6 at a concrete entrypoint and request. -/
theorem wrapper_default_port_and_stdin_witness :
    buildCmd { entrypoint := ["fn", "-v"] }
        { image := "img", resourceList := [4, 5] } =
      some { path := "fn", args := ["-v"], stdin := [4, 5] } ∧
    (parseOptions none [] none).port = 9446 ∧
    listenAddress (parseOptions none [] none).port = ":9446" ∧
    ({ path := "fn", args := ["-v"], stdin := [4, 5] } : ExecCmd).stdin =
      ({ image := "img", resourceList := [4, 5] } :
        EvaluateFunctionRequest).resourceList :=
  ⟨rfl,
    wrapper_default_port_and_stdin [] none { entrypoint := ["fn", "-v"] }
      { image := "img", resourceList := [4, 5] }
      { path := "fn", args := ["-v"], stdin := [4, 5] } rfl⟩

/-- C7: the health-check Watch reply is a one-element stream: exactly
one message, with status `SERVING`, and then the handler returns,
terminating the stream. -/
theorem watch_single_shot (req : HealthCheckRequest) :
    HealthChecker.Watch req = [{ status := ServingStatus.serving }] ∧
    (HealthChecker.Watch req).length = 1 :=
  ⟨rfl, rfl⟩

/-- C8: with an empty entrypoint, `EvaluateFunction` hits the
out-of-bounds index `entrypoint[0]` (modelled `none`) on every call; with
a non-empty entrypoint it always produces a classified outcome. -/
theorem evaluateFunction_entrypoint_safety
    (e : singleFunctionEvaluator) (req : EvaluateFunctionRequest)
    (outcome : CmdRunOutcome) :
    (e.entrypoint = [] → EvaluateFunction e req outcome = none) ∧
    (e.entrypoint ≠ [] → (EvaluateFunction e req outcome).isSome = true) := by
  obtain ⟨ep⟩ := e
  cases ep with
  | nil =>
      refine ⟨fun _ => rfl, fun hne => absurd rfl hne⟩
  | cons p rest =>
      refine ⟨fun hc => by simp at hc, fun _ => ?_⟩
      by_cases hb : isNonExitFailure outcome.err = true <;>
        simp [EvaluateFunction, buildCmd, hb]

/-- Witness for C8 at an empty and a singleton entrypoint. -/
theorem evaluateFunction_entrypoint_safety_witness :
    EvaluateFunction { entrypoint := [] }
      { image := "img", resourceList := [] }
      { err := none, stdout := [], stderr := [] } = none ∧
    (EvaluateFunction { entrypoint := ["fn"] }
      { image := "img", resourceList := [] }
      { err := none, stdout := [], stderr := [] }).isSome = true :=
  ⟨(evaluateFunction_entrypoint_safety { entrypoint := [] }
      { image := "img", resourceList := [] }
      { err := none, stdout := [], stderr := [] }).1 rfl,
    (evaluateFunction_entrypoint_safety { entrypoint := ["fn"] }
      { image := "img", resourceList := [] }
      { err := none, stdout := [], stderr := [] }).2 (by decide)⟩

/-- C9: `Password.String` renders every stored password as the same
fixed thirteen-asterisk mask, so no two password values are
distinguishable through it. -/
theorem password_string_masks (p q : Password) :
    Password.String p = "*************" ∧
    Password.String p = Password.String q :=
  ⟨rfl, rfl⟩

/-- C10: `NoopUpdateStrategy` accepts every update and changes nothing:
validation returns the empty error list, preparation returns both objects
unchanged, and canonicalization returns its object unchanged. -/
theorem noopUpdateStrategy_noop {Obj : Type} (s : NoopUpdateStrategy)
    (ctx : GoContext) (obj old : Obj) :
    NoopUpdateStrategy.ValidateUpdate s ctx obj old = [] ∧
    NoopUpdateStrategy.PrepareForUpdate s ctx obj old = (obj, old) ∧
    NoopUpdateStrategy.Canonicalize s obj = obj :=
  ⟨rfl, rfl, rfl⟩

end Porch
